import Mathlib

/-!
Verification of the event-driven orchestration core of the Videogen services
repository: the shared event envelope (`libs/contracts/contracts/events.py`),
the degraded-mode publisher and DLQ helper (`libs/common/common/kafka.py`),
the idempotent consumer loop of the render service
(`services/render-service/app/integrations/kafka_consumer.py`), the render
orchestrator (`services/render-service/app/services/render_service.py`) and
the POI workflow transition table
(`services/poi-service/app/services/poi_service.py`).

Python dictionaries carrying JSON data are modelled by an inductive `Json`
type; impure inputs (fresh UUIDs, clock reads, broker availability, the
outcome of each provider call and handler attempt) are passed as explicit
parameters, and raising code is modelled with `Except` / explicit error
fields.  Database commits are modelled by returning the updated rows; an
exception that propagates leaves the rows committed so far, exactly as the
source does.
-/

/-- JSON values, the payload universe of every envelope (Python `dict` values
serialised by pydantic).  Objects are association lists. -/
inductive Json where
  | null : Json
  | bool (b : Bool) : Json
  | num (n : Int) : Json
  | str (s : String) : Json
  | arr (xs : List Json) : Json
  | obj (fields : List (String × Json)) : Json

/-- The event envelope `DomainEvent` of `libs/contracts/contracts/events.py`.
`event_id` and `occurred_at` are filled by impure default factories
(`uuid.uuid4()`, `datetime.now`) in the source; here they are plain fields set
by the construction sites, which pass the fresh values explicitly.
`occurred_at` is the ISO-8601 text pydantic serialises the datetime to. -/
structure DomainEvent where
  event_id : String
  event_type : String
  occurred_at : String
  schema_version : Int
  correlation_id : String
  payload : List (String × Json)

/-- Constructor defaults of `DomainEvent`: fresh id and timestamp supplied by
the caller, `schema_version = 1`. -/
def mkDomainEvent (freshId now : String) (event_type : String)
    (correlation_id : String) (payload : List (String × Json)) : DomainEvent :=
  { event_id := freshId
    event_type := event_type
    occurred_at := now
    schema_version := 1
    correlation_id := correlation_id
    payload := payload }

/-- `DomainEvent.to_kafka_value`: `model_dump_json().encode("utf-8")`,
modelled at the level of the JSON document (the UTF-8 text encoding of the
document is injective and handled by the JSON codec). -/
def to_kafka_value (e : DomainEvent) : Json :=
  .obj [("event_id", .str e.event_id),
        ("event_type", .str e.event_type),
        ("occurred_at", .str e.occurred_at),
        ("schema_version", .num e.schema_version),
        ("correlation_id", .str e.correlation_id),
        ("payload", .obj e.payload)]

/-- First binding of a key in a JSON object, as pydantic field extraction. -/
def jGet (k : String) : List (String × Json) → Option Json
  | [] => none
  | (k2, v) :: rest => if k2 = k then some v else jGet k rest

/-- `DomainEvent.from_kafka_value`: `model_validate_json(raw)`.  Validation
fails (pydantic raises, the `MalformedEventError` of the spec) when the
document is not an object or a present field has the wrong type; `none`
models that exception.  Fields absent from the document would be filled by
the impure default factories, so this model requires them to be present —
every document produced by `to_kafka_value` carries all six. -/
def from_kafka_value (j : Json) : Option DomainEvent :=
  match j with
  | .obj fields =>
    match jGet "event_id" fields, jGet "event_type" fields,
          jGet "occurred_at" fields, jGet "schema_version" fields,
          jGet "correlation_id" fields, jGet "payload" fields with
    | some (.str ei), some (.str et), some (.str oc), some (.num sv),
      some (.str ci), some (.obj pl) =>
        some { event_id := ei, event_type := et, occurred_at := oc,
               schema_version := sv, correlation_id := ci, payload := pl }
    | _, _, _, _, _, _ => none
  | _ => none

/-!
Publisher of `libs/common/common/kafka.py`.  The singleton producer and the
broker are modelled by three booleans: whether a producer is already started
(`producerUp`), whether a lazy `start_kafka_producer()` would succeed
(`startOk`) and whether `send_and_wait` would succeed (`sendOk`).  Every
raising call in the source is wrapped in `try/except`, so the model is a
total function: its outcome value records which log-and-fall-back branch ran.
-/

/-- Python `x or default` on an optional string: `None` and `""` are falsy. -/
def pyOr (v : Option String) (default : String) : String :=
  match v with
  | some s => if s = "" then default else s
  | none => default

/-- Outcome of one publish call: broker never became available (event logged
locally at WARN, or at ERROR for the DLQ helper), transport failure on send
(logged, event kept), or the serialised envelope handed to the broker. -/
inductive PubOutcome where
  | loggedNoBroker : PubOutcome
  | sent (topic : String) (value : Json) (key : String) : PubOutcome
  | loggedSendFailed (topic : String) (value : Json) (key : String) : PubOutcome

/-- `publish_event` of `common/kafka.py`: build the envelope, lazily obtain
the producer, send keyed by `key or event.event_id`; on unavailable broker or
failed send, log and keep going.  Returns the built envelope together with
the outcome; the function is total — publishing failure never raises. -/
def publish_event (freshId now ambientCid : String)
    (producerUp startOk sendOk : Bool)
    (topic event_type : String) (payload : List (String × Json))
    (key correlation_id : Option String) : DomainEvent × PubOutcome :=
  let event := mkDomainEvent freshId now event_type (pyOr correlation_id ambientCid) payload
  if producerUp || startOk then
    if sendOk then
      (event, .sent topic (to_kafka_value event) (pyOr key event.event_id))
    else
      (event, .loggedSendFailed topic (to_kafka_value event) (pyOr key event.event_id))
  else
    (event, .loggedNoBroker)

/-- `DLQ_TOPIC` of `common/kafka.py`. -/
def DLQ_TOPIC : String := "dlq.events"

/-- `publish_to_dlq` of `common/kafka.py`: wrap the raw failed message (not
re-deserialised) in a `dlq.message_failed` envelope and send it to the fixed
DLQ topic; with no broker, log at ERROR (message lost) instead of raising. -/
def publish_to_dlq (freshId now ambientCid : String)
    (producerUp startOk sendOk : Bool)
    (original_topic raw_value error : String) (retry_count : Nat) : PubOutcome :=
  if producerUp || startOk then
    let event := mkDomainEvent freshId now "dlq.message_failed" ambientCid
      [("original_topic", .str original_topic),
       ("raw_value", .str raw_value),
       ("error", .str error),
       ("retry_count", .num (retry_count : Int))]
    if sendOk then .sent DLQ_TOPIC (to_kafka_value event) event.event_id
    else .loggedSendFailed DLQ_TOPIC (to_kafka_value event) event.event_id
  else .loggedNoBroker

/-!
`_LRUSet` of `kafka_consumer.py`: an `OrderedDict` used as a bounded set,
front of the list = oldest entry, back = most recently inserted/accessed.
The `OrderedDict` key set is duplicate-free; the list model keeps that as a
`Nodup` side condition where proofs need it.
-/

/-- `_LRUSet.__contains__` membership answer (`key in self._data`). -/
def lruMem (c : List String) (k : String) : Bool := decide (k ∈ c)

/-- `_LRUSet.__contains__` side effect: `move_to_end` on a hit. -/
def lruTouch (c : List String) (k : String) : List String :=
  if k ∈ c then c.erase k ++ [k] else c

/-- `_LRUSet.add`: `move_to_end` on a hit, otherwise append and, if the size
now exceeds `maxsize`, evict the front entry (`popitem(last=False)`). -/
def lruAdd (maxsize : Nat) (c : List String) (k : String) : List String :=
  if k ∈ c then c.erase k ++ [k]
  else
    let c2 := c ++ [k]
    if maxsize < c2.length then c2.drop 1 else c2

/-!
Consumer loop of `kafka_consumer.py`.  `_process_message_with_retry` is a
`for attempt in range(1, MAX_RETRIES + 1)` loop; each iteration deserialises
the raw bytes, skips duplicates through the `_LRUSet`, dispatches
`script.generated` to `_handle_script_generated`, ignores unknown event
types, and marks the event processed; any exception falls to the next
attempt (after a backoff sleep, not modelled — no claim concerns real time)
and exhaustion forwards the raw bytes to the DLQ.  Deserialisation is
deterministic per message and modelled as `Option DomainEvent`; whether the
handler invocation at a given attempt number raises is the oracle
`handlerOk`.  The whole loop is a total function: it never raises (the final
`publish_to_dlq` call is itself wrapped in `try/except` in the source).
-/

/-- `MAX_RETRIES` of `kafka_consumer.py`. -/
def MAX_RETRIES : Nat := 3

/-- What one call of `_process_message_with_retry` left behind: the
idempotency-cache contents, how many times the handler was invoked, how many
loop iterations ran, the `publish_to_dlq` call (raw bytes and `retry_count`)
if retries were exhausted, and whether the message was skipped as a
duplicate. -/
structure StepResult where
  cache : List String
  handlerCalls : Nat
  attempts : Nat
  dlq : Option (String × Nat)
  dupSkipped : Bool

/-- The retry loop body, iterating over the remaining attempt numbers
(`range(1, MAX_RETRIES + 1)`); falling off the list is retry exhaustion and
calls `publish_to_dlq(raw, retry_count = MAX_RETRIES)`. -/
def consumeGo (maxsize : Nat) (raw : String) (deser : Option DomainEvent)
    (handlerOk : Nat → Bool) :
    List Nat → List String → Nat → Nat → StepResult
  | [], cache, calls, attempts =>
      { cache := cache, handlerCalls := calls, attempts := attempts,
        dlq := some (raw, MAX_RETRIES), dupSkipped := false }
  | attempt :: rest, cache, calls, attempts =>
      match deser with
      | none =>
          -- DomainEvent.from_kafka_value raised: retry
          consumeGo maxsize raw deser handlerOk rest cache calls (attempts + 1)
      | some e =>
          if e.event_id ∈ cache then
            { cache := lruTouch cache e.event_id, handlerCalls := calls,
              attempts := attempts + 1, dlq := none, dupSkipped := true }
          else if e.event_type = "script.generated" then
            if handlerOk attempt then
              { cache := lruAdd maxsize cache e.event_id,
                handlerCalls := calls + 1, attempts := attempts + 1,
                dlq := none, dupSkipped := false }
            else
              -- handler raised: retry
              consumeGo maxsize raw deser handlerOk rest cache (calls + 1) (attempts + 1)
          else
            -- unknown event type: logged at DEBUG, still marked processed
            { cache := lruAdd maxsize cache e.event_id, handlerCalls := calls,
              attempts := attempts + 1, dlq := none, dupSkipped := false }

/-- `_process_message_with_retry(msg)` for one delivered message. -/
def process_message_with_retry (maxsize : Nat) (raw : String)
    (deser : Option DomainEvent) (handlerOk : Nat → Bool)
    (cache : List String) : StepResult :=
  consumeGo maxsize raw deser handlerOk (List.range' 1 MAX_RETRIES) cache 0 0

/-!
Render orchestrator of `services/render-service/app/services/render_service.py`
over the rows of `app/db/models.py`.  UUID columns are strings; datetime
columns are abstract clock readings (`Nat`); the float columns
`duration_seconds` and `cost` are carried opaquely as `Nat` (no claim does
arithmetic on them).  The unused JSON `metadata` column is omitted.  The
pluggable provider (`get_runway_client().generate_scene`) is an oracle from
the 0-based position of the scene in processing order to either a result
dict or a raised error message.
-/

/-- Result dict of `RunwayClient.generate_scene`. -/
structure GenResult where
  output_path : String
  provider : String
  cost : Nat

/-- One entry of the `scenes` list of a `script.generated` payload; every
field is read with a `.get(key, default)`. -/
structure SceneInput where
  scene_number : Option Nat
  title : Option String
  visual_prompt : Option String
  duration_seconds : Option Nat

/-- The fields `create_render_from_script_event` reads from a
`script.generated` payload: `script_id` and `poi_id` (required, assumed to
be well-formed UUIDs — `uuid.UUID` parsing is not modelled),
`payload.get("scene_count", 0)` and `payload.get("scenes", [])`. -/
structure Payload where
  script_id : String
  poi_id : String
  scene_count : Option Nat
  scenes : List SceneInput

/-- A `render_jobs` row. -/
structure RenderJob where
  id : String
  poi_id : String
  script_id : String
  status : String
  total_scenes : Nat
  completed_scenes : Nat
  output_path : Option String
  voiceover_audio_path : Option String
  voiceover_id : Option String
  published_url : Option String
  published_at : Option Nat
  error_message : Option String
  created_at : Nat
  completed_at : Option Nat

/-- A `render_scenes` row. -/
structure RenderScene where
  render_job_id : String
  scene_number : Nat
  title : String
  visual_prompt : String
  status : String
  output_path : Option String
  duration_seconds : Nat
  provider : String
  cost : Nat
  error_message : Option String

/-- Events emitted through `publish_video_event` during render processing
and publication (payload fields as built at the call sites; the fresh scene
row id also carried by `render.scene.generated` is not modelled). -/
inductive PubEvent where
  | sceneGenerated (render_job_id : String) (scene_number : Nat) (poi_id : String)
  | renderCompleted (render_job_id poi_id script_id : String) (total_scenes : Nat)
  | videoPublished (render_job_id poi_id script_id : String)
      (published_url : String) (voiceover_audio_path : Option String)

/-- Database state and control outcome after driving the scene loop: the job
row as committed, the committed scene rows, the published events, and the
exception text if the provider call raised (in the source the exception
propagates out of `_process_scenes`; the rows committed before it remain). -/
structure ProcState where
  job : RenderJob
  scenes : List RenderScene
  events : List PubEvent
  raised : Option String

/-- Placeholder scene data synthesized when the event carries no scene
details: `range(job.total_scenes or 6)` — Python `or` turns a zero count
into the default of 6. -/
def placeholder_scenes (total : Nat) : List SceneInput :=
  (List.range (if total = 0 then 6 else total)).map fun i =>
    { scene_number := some (i + 1)
      title := some ("Scene " ++ toString (i + 1))
      visual_prompt := some ""
      duration_seconds := some 5 }

/-- The `for scene_data in scenes_data` loop of `_process_scenes`, followed
by the completion block.  Each iteration commits the scene row, calls the
provider (a raise stops everything with the row still `pending`), marks the
scene completed, increments `completed_scenes` and publishes
`render.scene.generated`. -/
def process_scenes_go (now : Nat) (provider : Nat → Except String GenResult) :
    List SceneInput → Nat → RenderJob → List RenderScene → List PubEvent → ProcState
  | [], _, job, scenes, events =>
      -- mark job complete, stamp completed_at and output_path, publish
      { job := { job with
          status := "completed"
          completed_at := some now
          output_path := some ("/data/renders/" ++ job.id ++ "/final.mp4") }
        scenes := scenes
        events := events ++ [.renderCompleted job.id job.poi_id job.script_id job.total_scenes]
        raised := none }
  | sd :: rest, idx, job, scenes, events =>
      let scene0 : RenderScene :=
        { render_job_id := job.id
          scene_number := sd.scene_number.getD 1
          title := sd.title.getD "Untitled"
          visual_prompt := sd.visual_prompt.getD ""
          status := "pending"
          output_path := none
          duration_seconds := sd.duration_seconds.getD 5
          provider := "stub"
          cost := 0
          error_message := none }
      match provider idx with
      | .error msg =>
          -- generate_scene raised: the exception propagates; the job row
          -- keeps its current (processing) state, no later scene is touched
          { job := job, scenes := scenes ++ [scene0], events := events,
            raised := some msg }
      | .ok res =>
          let scene1 := { scene0 with
            status := "completed"
            output_path := some res.output_path
            provider := res.provider
            cost := res.cost }
          let job2 := { job with completed_scenes := job.completed_scenes + 1 }
          process_scenes_go now provider rest (idx + 1) job2 (scenes ++ [scene1])
            (events ++ [.sceneGenerated job.id scene1.scene_number job.poi_id])

/-- `_process_scenes(job, payload)`: set the job `processing`, pick the scene
data (placeholders if the payload has none), run the loop. -/
def process_scenes (now : Nat) (provider : Nat → Except String GenResult)
    (job : RenderJob) (p : Payload) : ProcState :=
  let job1 := { job with status := "processing" }
  let scenes_data := if p.scenes.isEmpty then placeholder_scenes job1.total_scenes else p.scenes
  process_scenes_go now provider scenes_data 0 job1 [] []

/-- `create_render_from_script_event(payload)`: commit a `pending` job with
`total_scenes = payload.get("scene_count", 0)`, then immediately process the
scenes. -/
def create_render_from_script_event (freshId : String) (now : Nat)
    (provider : Nat → Except String GenResult) (p : Payload) : ProcState :=
  let job : RenderJob :=
    { id := freshId
      poi_id := p.poi_id
      script_id := p.script_id
      status := "pending"
      total_scenes := p.scene_count.getD 0
      completed_scenes := 0
      output_path := none
      voiceover_audio_path := none
      voiceover_id := none
      published_url := none
      published_at := none
      error_message := none
      created_at := now
      completed_at := none }
  process_scenes now provider job p

/-- `_handle_script_generated`: one handler invocation commits exactly the one
new job of `create_render_from_script_event` into the `render_jobs` table. -/
def handle_script_generated (table : List RenderJob) (freshId : String)
    (now : Nat) (provider : Nat → Except String GenResult) (p : Payload) :
    List RenderJob × ProcState :=
  let st := create_render_from_script_event freshId now provider p
  (table ++ [st.job], st)

/-- Business errors of `common/errors.py` raised by the service layer. -/
inductive AppErr where
  | notFound (detail : String) : AppErr
  | workflow (detail : String) : AppErr

/-- `self.db.get(RenderJob, render_id)` over a keyed row list. -/
def getJob : List (String × RenderJob) → String → Option RenderJob
  | [], _ => none
  | (k, j) :: rest, rid => if k = rid then some j else getJob rest rid

/-- Commit of an updated row. -/
def setJob : List (String × RenderJob) → String → RenderJob → List (String × RenderJob)
  | [], _, _ => []
  | (k, j) :: rest, rid, j2 =>
      if k = rid then (k, j2) :: rest else (k, j) :: setJob rest rid j2

/-- The stub delivery URL of `publish_video`. -/
def cdn_url (id : String) : String :=
  "https://cdn.poi-video.example.com/videos/" ++ id ++ "/final.mp4"

/-- The row mutation `publish_video` commits on a completed job. -/
def publishedJob (now : Nat) (job : RenderJob) : RenderJob :=
  { job with published_url := some (cdn_url job.id), published_at := some now }

/-- `publish_video(render_id)`: not found or not completed raise before any
mutation (the store comes back untouched); on a completed job commit the
delivery URL and timestamp and publish `video.published`. -/
def publish_video (now : Nat) (store : List (String × RenderJob))
    (render_id : String) :
    List (String × RenderJob) × Except AppErr RenderJob × List PubEvent :=
  match getJob store render_id with
  | none => (store, .error (.notFound ("Render job " ++ render_id ++ " not found")), [])
  | some job =>
    if job.status = "completed" then
      let j2 := publishedJob now job
      (setJob store render_id j2, .ok j2,
        [.videoPublished j2.id j2.poi_id j2.script_id (cdn_url job.id) j2.voiceover_audio_path])
    else
      (store, .error (.workflow
        ("Can only publish completed renders (current: " ++ job.status ++ ")")), [])

/-- `retry_render(render_id)`: only a failed job may be reset to `pending`
with `completed_scenes = 0` and a cleared `error_message`. -/
def retry_render (store : List (String × RenderJob)) (render_id : String) :
    List (String × RenderJob) × Except AppErr RenderJob :=
  match getJob store render_id with
  | none => (store, .error (.notFound ("Render job " ++ render_id ++ " not found")))
  | some job =>
    if job.status = "failed" then
      let j2 := { job with status := "pending", completed_scenes := 0, error_message := none }
      (setJob store render_id j2, .ok j2)
    else
      (store, .error (.workflow
        ("Can only retry failed renders (current: " ++ job.status ++ ")")))

/-!
POI workflow transition table of
`services/poi-service/app/services/poi_service.py`.
-/

/-- `_TRANSITIONS` as a total lookup: the `dict.get(status, set())` of
`_check_transition` makes every unlisted status map to the empty set, which
is also the explicit entry for `archived`. -/
def TRANSITIONS (status : String) : List String :=
  if status = "draft" then ["validated"]
  else if status = "validated" then ["published", "draft"]
  else if status = "published" then ["archived"]
  else []

/-- `POIService._check_transition`: raise `WorkflowError` when the target is
not among the allowed successors; a pure check, no state is touched. -/
def check_transition (current target : String) : Except AppErr Unit :=
  if target ∈ TRANSITIONS current then .ok ()
  else .error (.workflow ("Cannot transition from " ++ current ++ " to " ++ target))

/-!
Concrete inputs used by counterexample and divergence theorems.
-/

/-- A provider that succeeds on every scene with the stub result shape. -/
def okProvider : Nat → Except String GenResult :=
  fun _ => .ok { output_path := "/data/renders/stub.mp4", provider := "stub", cost := 0 }

/-- A provider whose very first `generate_scene` call raises. -/
def downProvider : Nat → Except String GenResult :=
  fun _ => .error "Runway API error"

/-- A `script.generated` payload with two scenes and a matching
`scene_count`. -/
def twoScenePayload : Payload :=
  { script_id := "s1"
    poi_id := "p1"
    scene_count := some 2
    scenes :=
      [{ scene_number := some 1, title := some "Scene 1",
         visual_prompt := some "prompt 1", duration_seconds := some 5 },
       { scene_number := some 2, title := some "Scene 2",
         visual_prompt := some "prompt 2", duration_seconds := some 5 }] }

/-- The same two-scene payload with `scene_count` omitted (so the service
defaults `total_scenes` to 0 while still processing both scenes). -/
def twoSceneNoCountPayload : Payload :=
  { twoScenePayload with scene_count := none }

/-- A pending render job row. -/
def pendingJob : RenderJob :=
  { id := "r1", poi_id := "p1", script_id := "s1", status := "pending",
    total_scenes := 3, completed_scenes := 0, output_path := none,
    voiceover_audio_path := none, voiceover_id := none, published_url := none,
    published_at := none, error_message := none, created_at := 0,
    completed_at := none }

/-- A completed render job row. -/
def completedJob : RenderJob :=
  { id := "r2", poi_id := "p2", script_id := "s2", status := "completed",
    total_scenes := 3, completed_scenes := 3,
    output_path := some "/data/renders/r2/final.mp4",
    voiceover_audio_path := none, voiceover_id := none, published_url := none,
    published_at := none, error_message := none, created_at := 0,
    completed_at := some 1 }

/-- A failed render job row (as the test suite constructs one). -/
def failedJob : RenderJob :=
  { id := "r3", poi_id := "p3", script_id := "s3", status := "failed",
    total_scenes := 4, completed_scenes := 2, output_path := none,
    voiceover_audio_path := none, voiceover_id := none, published_url := none,
    published_at := none, error_message := some "Runway API error",
    created_at := 0, completed_at := none }

/-- A concrete `script.generated` envelope. -/
def scriptEvent : DomainEvent := mkDomainEvent "e1" "t1" "script.generated" "" []

/-- A concrete envelope of a type this consumer has no handler for. -/
def unknownEvent : DomainEvent := mkDomainEvent "e2" "t1" "asset.created" "" []

/-!
Theorems.
-/

theorem lruAdd_length_le (maxsize : Nat) (c : List String) (k : String)
    (h : c.length ≤ maxsize) : (lruAdd maxsize c k).length ≤ maxsize := by
  by_cases hk : k ∈ c
  · have hpos : 0 < c.length := List.length_pos_of_mem hk
    have herase : (c.erase k).length = c.length - 1 := List.length_erase_of_mem hk
    simp only [lruAdd, hk, if_true, List.length_append, herase, List.length_cons,
      List.length_nil]
    omega
  · by_cases hlen : maxsize < c.length + 1
    · simp only [lruAdd, hk, if_false, hlen, if_true, List.length_drop,
        List.length_append, List.length_cons, List.length_nil]
      omega
    · simp only [lruAdd, hk, if_false, List.length_append, List.length_cons,
        List.length_nil, hlen, if_neg]
      omega

theorem foldl_lruAdd_fresh (maxsize : Nat) :
    ∀ (ks c : List String), (c ++ ks).Nodup → c.length ≤ maxsize →
      ks.foldl (lruAdd maxsize) c = (c ++ ks).drop ((c ++ ks).length - maxsize) := by
  intro ks
  induction ks with
  | nil =>
      intro c _ hlen
      simp [Nat.sub_eq_zero_of_le hlen]
  | cons k ks ih =>
      intro c hnd hlen
      have hrw : c ++ k :: ks = (c ++ [k]) ++ ks := by
        simp [List.append_assoc]
      have hnd2 : ((c ++ [k]) ++ ks).Nodup := by rw [← hrw]; exact hnd
      have hkc : k ∉ c := by
        intro hmem
        exact (List.nodup_append.mp hnd).2.2 hmem (List.mem_cons_self k ks)
      have hstep : List.foldl (lruAdd maxsize) c (k :: ks)
          = List.foldl (lruAdd maxsize) (lruAdd maxsize c k) ks := rfl
      rw [hstep]
      by_cases hcap : maxsize < c.length + 1
      · -- the cache is full: the front entry is evicted
        have hclen : c.length = maxsize := by omega
        have hadd : lruAdd maxsize c k = ((c ++ [k]).drop 1) := by
          simp [lruAdd, hkc, hcap]
        have hdrop : ((c ++ [k]).drop 1) ++ ks = ((c ++ [k]) ++ ks).drop 1 :=
          (List.drop_append_of_le_length (by simp)).symm
        have hnd3 : (((c ++ [k]).drop 1) ++ ks).Nodup := by
          rw [hdrop]; exact hnd2.sublist (List.drop_sublist 1 _)
        have hlen3 : ((c ++ [k]).drop 1).length ≤ maxsize := by
          simp only [List.length_drop, List.length_append, List.length_cons,
            List.length_nil]
          omega
        rw [hadd, ih _ hnd3 hlen3, hdrop, List.drop_drop, hrw]
        congr 1
        simp only [List.length_drop, List.length_append, List.length_cons,
          List.length_nil]
        omega
      · -- room left: plain append
        have hadd : lruAdd maxsize c k = c ++ [k] := by
          simp [lruAdd, hkc, hcap]
        have hlen2 : (c ++ [k]).length ≤ maxsize := by
          simp only [List.length_append, List.length_cons, List.length_nil]
          omega
        rw [hadd, ih _ hnd2 hlen2, hrw]

/-- C7: for every Envelope `E`, deserialising the document produced by
serialising `E` yields an Envelope equal to `E` in all six fields
(`event_id`, `event_type`, `occurred_at`, `schema_version`,
`correlation_id`, `payload`). -/
theorem serialize_roundtrip (e : DomainEvent) :
    from_kafka_value (to_kafka_value e) = some e := rfl

/-- C6: inserting `maxsize + 1` distinct event ids into an empty `_LRUSet`
(with no intervening re-access) leaves the least-recently-inserted id no
longer reported as contained, keeps all the other `maxsize` ids contained,
and the set size never exceeds `maxsize` at any step of the insertion. -/
theorem lru_capacity_eviction (maxsize : Nat) (k : String) (rest : List String)
    (hnd : (k :: rest).Nodup) (hlen : rest.length = maxsize) :
    lruMem ((k :: rest).foldl (lruAdd maxsize) []) k = false ∧
    (∀ x ∈ rest, lruMem ((k :: rest).foldl (lruAdd maxsize) []) x = true) ∧
    (∀ n : Nat, (((k :: rest).take n).foldl (lruAdd maxsize) []).length ≤ maxsize) := by
  have hfold : (k :: rest).foldl (lruAdd maxsize) [] = rest := by
    have := foldl_lruAdd_fresh maxsize (k :: rest) [] (by simpa using hnd)
      (by simp)
    simpa [hlen] using this
  refine ⟨?_, ?_, ?_⟩
  · rw [hfold]
    have : k ∉ rest := (List.nodup_cons.mp hnd).1
    simp [lruMem, this]
  · intro x hx
    rw [hfold]
    simp [lruMem, hx]
  · intro n
    have : ∀ (l acc : List String), acc.length ≤ maxsize →
        (l.foldl (lruAdd maxsize) acc).length ≤ maxsize := by
      intro l
      induction l with
      | nil => intro acc h; simpa using h
      | cons a l ih =>
          intro acc h
          exact ih _ (lruAdd_length_le maxsize acc a h)
    exact this _ [] (by simp)

/-- Witness for C6 at capacity 2 with ids a, b, c. -/
theorem lru_capacity_eviction_witness :
    (("a" :: ["b", "c"]).Nodup ∧ (["b", "c"] : List String).length = 2) ∧
    lruMem (("a" :: ["b", "c"]).foldl (lruAdd 2) []) "a" = false ∧
    (∀ x ∈ ["b", "c"], lruMem (("a" :: ["b", "c"]).foldl (lruAdd 2) []) x = true) ∧
    (∀ n : Nat, ((("a" :: ["b", "c"]).take n).foldl (lruAdd 2) []).length ≤ 2) :=
  ⟨⟨by decide, by decide⟩, lru_capacity_eviction 2 "a" ["b", "c"] (by decide) (by decide)⟩

theorem range_attempts : List.range' 1 MAX_RETRIES = [1, 2, 3] := rfl

theorem mem_lruAdd_self (maxsize : Nat) (c : List String) (k : String)
    (hcap : 1 ≤ maxsize) (hlen : c.length ≤ maxsize) : k ∈ lruAdd maxsize c k := by
  by_cases hk : k ∈ c
  · simp [lruAdd, hk]
  · cases c with
    | nil =>
        have h1 : ¬ maxsize < 1 := by omega
        simp [lruAdd, h1]
    | cons a c2 =>
        simp only [lruAdd, hk, if_false]
        split <;> simp

/-- C3: a message every attempt of which raises — whether deserialisation
fails (`deser = none`) or the `script.generated` handler raises on every
attempt — is attempted exactly `MAX_RETRIES` times and then forwarded to the
dead-letter topic as its raw bytes with `retry_count = MAX_RETRIES`; the
handler is invoked once per attempt in the handler-raising case and never in
the malformed case, the cache is untouched, and the loop itself never raises
(it is a total function whose final DLQ publish is also exception-guarded). -/
theorem bounded_retry_exhausts_to_dlq (maxsize : Nat) (raw : String)
    (cache : List String) (handlerOk : Nat → Bool) (e : DomainEvent)
    (hid : e.event_id ∉ cache) (het : e.event_type = "script.generated")
    (hok : ∀ a, handlerOk a = false) :
    process_message_with_retry maxsize raw none handlerOk cache =
      { cache := cache, handlerCalls := 0, attempts := MAX_RETRIES,
        dlq := some (raw, MAX_RETRIES), dupSkipped := false } ∧
    process_message_with_retry maxsize raw (some e) handlerOk cache =
      { cache := cache, handlerCalls := MAX_RETRIES, attempts := MAX_RETRIES,
        dlq := some (raw, MAX_RETRIES), dupSkipped := false } := by
  constructor
  · simp [process_message_with_retry, range_attempts, consumeGo, MAX_RETRIES]
  · simp [process_message_with_retry, range_attempts, consumeGo, hid, het, hok,
      MAX_RETRIES]

/-- Witness for C3 on a concrete message, cache and always-raising handler. -/
theorem bounded_retry_exhausts_to_dlq_witness :
    process_message_with_retry 10000 "raw-bytes" none (fun _ => false) [] =
      { cache := [], handlerCalls := 0, attempts := MAX_RETRIES,
        dlq := some ("raw-bytes", MAX_RETRIES), dupSkipped := false } ∧
    process_message_with_retry 10000 "raw-bytes"
        (some (mkDomainEvent "e1" "t1" "script.generated" "" []))
        (fun _ => false) [] =
      { cache := [], handlerCalls := MAX_RETRIES, attempts := MAX_RETRIES,
        dlq := some ("raw-bytes", MAX_RETRIES), dupSkipped := false } :=
  bounded_retry_exhausts_to_dlq 10000 "raw-bytes" [] (fun _ => false)
    (mkDomainEvent "e1" "t1" "script.generated" "" [])
    (by simp) rfl (fun _ => rfl)

/-- C2: delivering the same envelope to the consumer loop twice, the first
delivery processed successfully, invokes the `script.generated` handler
exactly once: the first delivery dispatches it and caches the `event_id`,
the second finds the id in the idempotency cache and is skipped as a
duplicate.  Each handler invocation commits exactly one new `RenderJob` row
(`handle_script_generated` appends one job to the table), so exactly one
RenderJob is created across the two deliveries. -/
theorem idempotent_consumption (maxsize : Nat) (raw : String)
    (cache : List String) (e : DomainEvent) (handlerOk handlerOk2 : Nat → Bool)
    (hcap : 1 ≤ maxsize) (hlen : cache.length ≤ maxsize)
    (hid : e.event_id ∉ cache) (het : e.event_type = "script.generated")
    (h1 : handlerOk 1 = true) :
    (process_message_with_retry maxsize raw (some e) handlerOk cache).handlerCalls = 1 ∧
    (process_message_with_retry maxsize raw (some e) handlerOk2
      (process_message_with_retry maxsize raw (some e) handlerOk cache).cache).handlerCalls = 0 ∧
    (process_message_with_retry maxsize raw (some e) handlerOk2
      (process_message_with_retry maxsize raw (some e) handlerOk cache).cache).dupSkipped = true ∧
    (∀ (table : List RenderJob) (freshId : String) (now : Nat)
        (provider : Nat → Except String GenResult) (p : Payload),
      (handle_script_generated table freshId now provider p).1.length = table.length + 1) := by
  have hr1 : process_message_with_retry maxsize raw (some e) handlerOk cache =
      { cache := lruAdd maxsize cache e.event_id, handlerCalls := 1, attempts := 1,
        dlq := none, dupSkipped := false } := by
    simp [process_message_with_retry, range_attempts, consumeGo, hid, het, h1]
  have hmem := mem_lruAdd_self maxsize cache e.event_id hcap hlen
  refine ⟨by rw [hr1], ?_, ?_, ?_⟩
  · rw [hr1]
    simp [process_message_with_retry, range_attempts, consumeGo, hmem]
  · rw [hr1]
    simp [process_message_with_retry, range_attempts, consumeGo, hmem]
  · intro table freshId now provider p
    simp [handle_script_generated]

/-- Witness for C2: the concrete `script.generated` envelope delivered twice
into an empty cache of the configured capacity. -/
theorem idempotent_consumption_witness :
    (process_message_with_retry 10000 "raw" (some scriptEvent) (fun _ => true) []).handlerCalls = 1 ∧
    (process_message_with_retry 10000 "raw" (some scriptEvent) (fun _ => true)
      (process_message_with_retry 10000 "raw" (some scriptEvent) (fun _ => true) []).cache).handlerCalls = 0 ∧
    (process_message_with_retry 10000 "raw" (some scriptEvent) (fun _ => true)
      (process_message_with_retry 10000 "raw" (some scriptEvent) (fun _ => true) []).cache).dupSkipped = true := by
  have h := idempotent_consumption 10000 "raw" [] scriptEvent (fun _ => true)
    (fun _ => true) (by decide) (by decide) (by decide) rfl rfl
  exact ⟨h.1, h.2.1, h.2.2.1⟩

/-- C10: an `event_id` enters the idempotency cache only when an attempt
completes without exception — handler success, or an unknown event type
(also marked processed).  A message that exhausts its retries into the DLQ
leaves the cache unchanged, so a later redelivery of the same `event_id` is
dispatched to the handler again rather than skipped as a duplicate. -/
theorem cache_insertion_only_after_success (maxsize : Nat) (raw : String)
    (cache : List String) (e : DomainEvent) (handlerOk handlerOk2 : Nat → Bool)
    (hid : e.event_id ∉ cache) :
    (e.event_type ≠ "script.generated" →
      process_message_with_retry maxsize raw (some e) handlerOk cache =
        { cache := lruAdd maxsize cache e.event_id, handlerCalls := 0, attempts := 1,
          dlq := none, dupSkipped := false }) ∧
    (e.event_type = "script.generated" → handlerOk 1 = true →
      process_message_with_retry maxsize raw (some e) handlerOk cache =
        { cache := lruAdd maxsize cache e.event_id, handlerCalls := 1, attempts := 1,
          dlq := none, dupSkipped := false }) ∧
    (e.event_type = "script.generated" → (∀ a, handlerOk a = false) →
      (process_message_with_retry maxsize raw (some e) handlerOk cache).cache = cache ∧
      (process_message_with_retry maxsize raw (some e) handlerOk cache).dlq
        = some (raw, MAX_RETRIES) ∧
      (handlerOk2 1 = true →
        (process_message_with_retry maxsize raw (some e) handlerOk2
          (process_message_with_retry maxsize raw (some e) handlerOk cache).cache).handlerCalls = 1 ∧
        (process_message_with_retry maxsize raw (some e) handlerOk2
          (process_message_with_retry maxsize raw (some e) handlerOk cache).cache).dupSkipped = false)) := by
  refine ⟨?_, ?_, ?_⟩
  · intro hne
    simp [process_message_with_retry, range_attempts, consumeGo, hid, hne]
  · intro het h1
    simp [process_message_with_retry, range_attempts, consumeGo, hid, het, h1]
  · intro het hok
    have hr : process_message_with_retry maxsize raw (some e) handlerOk cache =
        { cache := cache, handlerCalls := 3, attempts := 3,
          dlq := some (raw, MAX_RETRIES), dupSkipped := false } := by
      simp [process_message_with_retry, range_attempts, consumeGo, hid, het, hok]
    refine ⟨by rw [hr], by rw [hr], ?_⟩
    intro h2
    rw [hr]
    simp [process_message_with_retry, range_attempts, consumeGo, hid, het, h2]

/-- Witness for C10: an unknown-type envelope is cached without any handler
call; a poison `script.generated` envelope is dead-lettered, left out of the
cache, and handled on redelivery. -/
theorem cache_insertion_only_after_success_witness :
    process_message_with_retry 10000 "raw" (some unknownEvent) (fun _ => false) [] =
      { cache := lruAdd 10000 [] "e2", handlerCalls := 0, attempts := 1,
        dlq := none, dupSkipped := false } ∧
    (process_message_with_retry 10000 "raw" (some scriptEvent) (fun _ => false) []).cache = [] ∧
    (process_message_with_retry 10000 "raw" (some scriptEvent) (fun _ => true)
      (process_message_with_retry 10000 "raw" (some scriptEvent) (fun _ => false) []).cache).handlerCalls = 1 := by
  have h1 := cache_insertion_only_after_success 10000 "raw" [] unknownEvent
    (fun _ => false) (fun _ => true) (by decide)
  have h2 := cache_insertion_only_after_success 10000 "raw" [] scriptEvent
    (fun _ => false) (fun _ => true) (by decide)
  exact ⟨h1.1 (by decide), (h2.2.2 rfl (fun _ => rfl)).1,
    ((h2.2.2 rfl (fun _ => rfl)).2.2 rfl).1⟩

/-- C5: `publish_event` always builds and returns the Envelope — with the
given type and payload, the ambient correlation id when none is supplied —
whatever the broker does.  When no broker connection can be established the
event is only logged locally; when the send itself fails it is logged at
WARN; in every case the function returns normally, so publishing failure
never propagates to the caller. -/
theorem publish_event_never_raises (freshId now ambientCid : String)
    (producerUp startOk sendOk : Bool) (topic event_type : String)
    (payload : List (String × Json)) (key correlation_id : Option String) :
    (publish_event freshId now ambientCid producerUp startOk sendOk topic
        event_type payload key correlation_id).1
      = mkDomainEvent freshId now event_type (pyOr correlation_id ambientCid) payload ∧
    (producerUp = false → startOk = false →
      (publish_event freshId now ambientCid producerUp startOk sendOk topic
          event_type payload key correlation_id).2 = .loggedNoBroker) ∧
    ((producerUp || startOk) = true → sendOk = false →
      (publish_event freshId now ambientCid producerUp startOk sendOk topic
          event_type payload key correlation_id).2
        = .loggedSendFailed topic
            (to_kafka_value (mkDomainEvent freshId now event_type
              (pyOr correlation_id ambientCid) payload))
            (pyOr key freshId)) := by
  refine ⟨?_, ?_, ?_⟩
  · by_cases h : producerUp || startOk <;> by_cases h2 : sendOk <;>
      simp [publish_event, h, h2]
  · intro hp hs
    subst hp
    subst hs
    simp [publish_event]
  · intro h hs
    subst hs
    simp [publish_event, h, pyOr, mkDomainEvent]

/-- Witness for C5: a publish with no broker at all, and one whose send
fails, both return the built envelope. -/
theorem publish_event_never_raises_witness :
    (publish_event "e9" "t9" "amb" false false false "video.events"
        "poi.created" [] none none).1
      = mkDomainEvent "e9" "t9" "poi.created" "amb" [] ∧
    (publish_event "e9" "t9" "amb" false false false "video.events"
        "poi.created" [] none none).2 = .loggedNoBroker ∧
    (publish_event "e9" "t9" "amb" true true false "video.events"
        "poi.created" [] none none).2
      = .loggedSendFailed "video.events"
          (to_kafka_value (mkDomainEvent "e9" "t9" "poi.created" "amb" [])) "e9" := by
  have h1 := publish_event_never_raises "e9" "t9" "amb" false false false
    "video.events" "poi.created" [] none none
  have h2 := publish_event_never_raises "e9" "t9" "amb" true true false
    "video.events" "poi.created" [] none none
  exact ⟨h1.1, h1.2.1 rfl rfl, h2.2.2 rfl rfl⟩

/-- C1 divergence, evaluated at the failing input: a `script.generated`
payload with two scenes whose provider raises on the first scene.  After the
operation the job row is left in status `processing` — not `failed` — with
`error_message` still unset (nothing in `_process_scenes` catches the
provider exception, so the `failed` transition the spec describes never
happens); the fail-fast half of the claim does hold: only the first scene
row was persisted (still `pending`), no event was published and no later
scene was attempted. -/
theorem provider_failure_leaves_job_processing :
    (create_render_from_script_event "job1" 0 downProvider twoScenePayload).job.status
      = "processing" ∧
    (create_render_from_script_event "job1" 0 downProvider twoScenePayload).job.error_message
      = none ∧
    (create_render_from_script_event "job1" 0 downProvider twoScenePayload).raised
      = some "Runway API error" ∧
    (create_render_from_script_event "job1" 0 downProvider twoScenePayload).scenes.length
      = 1 ∧
    ((create_render_from_script_event "job1" 0 downProvider twoScenePayload).scenes.map
        (fun s => s.status)) = ["pending"] ∧
    (create_render_from_script_event "job1" 0 downProvider twoScenePayload).events = [] ∧
    (create_render_from_script_event "job1" 0 downProvider twoScenePayload).job.completed_scenes
      = 0 :=
  ⟨rfl, rfl, rfl, rfl, rfl, rfl, rfl⟩

/-- C4 counterexample: the same two scenes with `scene_count` omitted.  The
job is created with `total_scenes = payload.get("scene_count", 0) = 0`, yet
both supplied scenes are processed, so after the operation
`completed_scenes = 2 > 0 = total_scenes`. -/
theorem completed_exceeds_total_counterexample :
    (create_render_from_script_event "job1" 0 okProvider twoSceneNoCountPayload).job.completed_scenes
      = 2 ∧
    (create_render_from_script_event "job1" 0 okProvider twoSceneNoCountPayload).job.total_scenes
      = 0 ∧
    ¬ ((create_render_from_script_event "job1" 0 okProvider twoSceneNoCountPayload).job.completed_scenes
        ≤ (create_render_from_script_event "job1" 0 okProvider twoSceneNoCountPayload).job.total_scenes) :=
  ⟨rfl, rfl, by decide⟩

theorem process_scenes_go_counters (now : Nat) (provider : Nat → Except String GenResult) :
    ∀ (sds : List SceneInput) (idx : Nat) (job : RenderJob)
      (scenes : List RenderScene) (events : List PubEvent),
      (process_scenes_go now provider sds idx job scenes events).job.completed_scenes
        ≤ job.completed_scenes + sds.length ∧
      (process_scenes_go now provider sds idx job scenes events).job.total_scenes
        = job.total_scenes := by
  intro sds
  induction sds with
  | nil =>
      intro idx job scenes events
      constructor <;> simp [process_scenes_go]
  | cons sd rest ih =>
      intro idx job scenes events
      simp only [process_scenes_go]
      cases hp : provider idx with
      | error msg => constructor <;> simp
      | ok res =>
          dsimp only
          refine ⟨le_trans (ih _ _ _ _).1 ?_, (ih _ _ _ _).2⟩
          dsimp only
          simp only [List.length_cons]
          omega

theorem create_render_counters (freshId : String) (now : Nat)
    (provider : Nat → Except String GenResult) (p : Payload) :
    (create_render_from_script_event freshId now provider p).job.total_scenes
      = p.scene_count.getD 0 ∧
    (create_render_from_script_event freshId now provider p).job.completed_scenes
      ≤ (if p.scenes.isEmpty then placeholder_scenes (p.scene_count.getD 0)
         else p.scenes).length := by
  have h := process_scenes_go_counters now provider
    (if p.scenes.isEmpty then placeholder_scenes (p.scene_count.getD 0) else p.scenes) 0
    { id := freshId, poi_id := p.poi_id, script_id := p.script_id,
      status := "processing", total_scenes := p.scene_count.getD 0,
      completed_scenes := 0, output_path := none, voiceover_audio_path := none,
      voiceover_id := none, published_url := none, published_at := none,
      error_message := none, created_at := now, completed_at := none } [] []
  unfold create_render_from_script_event process_scenes
  constructor
  · exact h.2
  · simpa using h.1

theorem placeholder_scenes_length (total : Nat) :
    (placeholder_scenes total).length = if total = 0 then 6 else total := by
  simp [placeholder_scenes]

/-- C4 as amended: `completed_scenes` never exceeds `total_scenes` at any
point of job creation and scene processing — for every provider behaviour,
so in particular in every mid-failure state — provided the inbound payload
does not understate the scene data: `scene_count` must be at least the
length of a supplied scenes list, and at least 1 when no scenes are supplied
(otherwise the service processes more scenes than `total_scenes` records,
as the counterexample shows).  `retry_render` preserves the bound by
resetting `completed_scenes` to 0. -/
theorem completed_le_total_amended (freshId : String) (now : Nat)
    (provider : Nat → Except String GenResult) (p : Payload)
    (hc : p.scenes.isEmpty = true → 1 ≤ p.scene_count.getD 0)
    (hs : p.scenes.isEmpty = false → p.scenes.length ≤ p.scene_count.getD 0) :
    (create_render_from_script_event freshId now provider p).job.completed_scenes
      ≤ (create_render_from_script_event freshId now provider p).job.total_scenes ∧
    (∀ (store : List (String × RenderJob)) (rid : String)
        (st2 : List (String × RenderJob)) (j2 : RenderJob),
      retry_render store rid = (st2, .ok j2) → j2.completed_scenes = 0) := by
  constructor
  · obtain ⟨ht, hb⟩ := create_render_counters freshId now provider p
    rw [ht]
    refine le_trans hb ?_
    cases he : p.scenes.isEmpty with
    | true =>
        rw [if_pos rfl, placeholder_scenes_length]
        have h1 := hc he
        have h0 : p.scene_count.getD 0 ≠ 0 := by omega
        rw [if_neg h0]
    | false =>
        rw [if_neg (by simp)]
        exact hs he
  · intro store rid st2 j2 hret
    cases hg : getJob store rid with
    | none => simp [retry_render, hg] at hret
    | some job =>
        by_cases hf : job.status = "failed"
        · simp [retry_render, hg, hf] at hret
          obtain ⟨h1, h2⟩ := hret
          subst h2
          rfl
        · simp [retry_render, hg, hf] at hret

/-- Witness for C4 (amended) on a payload whose `scene_count` matches its two
scenes, processed by the always-succeeding stub provider. -/
theorem completed_le_total_amended_witness :
    (create_render_from_script_event "job1" 0 okProvider twoScenePayload).job.completed_scenes
      ≤ (create_render_from_script_event "job1" 0 okProvider twoScenePayload).job.total_scenes :=
  (completed_le_total_amended "job1" 0 okProvider twoScenePayload
    (by decide) (by decide)).1

theorem cdn_url_ne_empty (id : String) : cdn_url id ≠ "" := by
  intro h
  have hlen : (cdn_url id).length = 0 := by rw [h]; rfl
  rw [cdn_url, String.length_append, String.length_append] at hlen
  have h2 : ("/final.mp4" : String).length = 0 := by omega
  exact absurd h2 (by decide)

/-- C8: `publish_video` on an existing job whose status is not `completed`
raises `WorkflowError` before any mutation, so the store — every field of
the job included — is unchanged; on a `completed` job it commits the row
with `published_url` set to the non-empty delivery URL derived
deterministically from the job id and `published_at` set to the clock
reading, and publishes `video.published`. -/
theorem publish_video_requires_completed (now : Nat)
    (store : List (String × RenderJob)) (rid : String) (job : RenderJob)
    (hget : getJob store rid = some job) :
    (job.status ≠ "completed" →
      publish_video now store rid =
        (store, .error (.workflow
          ("Can only publish completed renders (current: " ++ job.status ++ ")")), [])) ∧
    (job.status = "completed" →
      publish_video now store rid =
        (setJob store rid (publishedJob now job), .ok (publishedJob now job),
          [.videoPublished job.id job.poi_id job.script_id (cdn_url job.id)
            job.voiceover_audio_path]) ∧
      (publishedJob now job).published_url = some (cdn_url job.id) ∧
      (publishedJob now job).published_at = some now ∧
      cdn_url job.id ≠ "") := by
  constructor
  · intro hne
    simp [publish_video, hget, hne]
  · intro heq
    refine ⟨?_, rfl, rfl, cdn_url_ne_empty job.id⟩
    simp [publish_video, hget, heq, publishedJob]

/-- Witness for C8: publishing a pending job fails and leaves its row
untouched; publishing a completed job sets both publication fields. -/
theorem publish_video_requires_completed_witness :
    publish_video 7 [("r1", pendingJob)] "r1" =
      ([("r1", pendingJob)],
        .error (.workflow "Can only publish completed renders (current: pending)"), []) ∧
    publish_video 7 [("r2", completedJob)] "r2" =
      ([("r2", publishedJob 7 completedJob)], .ok (publishedJob 7 completedJob),
        [.videoPublished "r2" "p2" "s2" (cdn_url "r2") none]) ∧
    (publishedJob 7 completedJob).published_url = some (cdn_url "r2") ∧
    (publishedJob 7 completedJob).published_at = some 7 ∧
    cdn_url "r2" ≠ "" := by
  have h1 := publish_video_requires_completed 7 [("r1", pendingJob)] "r1" pendingJob rfl
  have h2 := publish_video_requires_completed 7 [("r2", completedJob)] "r2" completedJob rfl
  exact ⟨h1.1 (by decide), h2.2 rfl⟩

theorem check_transition_ok_iff (s t : String) :
    check_transition s t = .ok () ↔ t ∈ TRANSITIONS s := by
  unfold check_transition
  split_ifs with h
  · simp [h]
  · simp [h]

/-- C9 counterexample: the code allows the backward edge
`validated → draft`, which is outside the set of edges the claim says the
POI table contains, and checking it succeeds instead of failing. -/
theorem poi_backward_edge_in_code :
    check_transition "validated" "draft" = .ok () ∧
    ("validated", "draft") ∉
      [("draft", "validated"), ("validated", "published"),
       ("published", "archived")] :=
  ⟨rfl, by decide⟩

/-- C9 as amended: the POI transition table contains exactly the edges
`draft→validated`, `validated→published`, `validated→draft` (the backward
edge the source allows) and `published→archived`; checking any other pair
fails with `WorkflowError` and the check itself is pure.  The render-job
retry guard accepts exactly `failed` (moving the job to `pending`) and any
other status fails with `WorkflowError`, leaving the store unchanged. -/
theorem transition_tables_exact :
    (∀ s t : String, check_transition s t = .ok () ↔
      (s, t) ∈ [("draft", "validated"), ("validated", "published"),
                ("validated", "draft"), ("published", "archived")]) ∧
    (∀ (store : List (String × RenderJob)) (rid : String) (job : RenderJob),
      getJob store rid = some job →
        (job.status = "failed" →
          retry_render store rid =
            (setJob store rid
              { job with status := "pending", completed_scenes := 0, error_message := none },
             .ok { job with status := "pending", completed_scenes := 0, error_message := none })) ∧
        (job.status ≠ "failed" →
          retry_render store rid =
            (store, .error (.workflow
              ("Can only retry failed renders (current: " ++ job.status ++ ")"))))) := by
  constructor
  · intro s t
    rw [check_transition_ok_iff]
    unfold TRANSITIONS
    by_cases h1 : s = "draft"
    · subst h1
      simp
    · by_cases h2 : s = "validated"
      · subst h2
        simp
      · by_cases h3 : s = "published"
        · subst h3
          simp
        · simp [h1, h2, h3, Prod.ext_iff]
  · intro store rid job hget
    constructor
    · intro heq
      simp [retry_render, hget, heq]
    · intro hne
      simp [retry_render, hget, hne]

/-- Witness for C9 (amended): a legal POI edge checks out, a failed render
is retried back to pending, and retrying a pending render is rejected. -/
theorem transition_tables_exact_witness :
    check_transition "draft" "validated" = .ok () ∧
    retry_render [("r3", failedJob)] "r3" =
      ([("r3", { failedJob with
                 status := "pending", completed_scenes := 0, error_message := none })],
        .ok { failedJob with
              status := "pending", completed_scenes := 0, error_message := none }) ∧
    retry_render [("r1", pendingJob)] "r1" =
      ([("r1", pendingJob)],
        .error (.workflow "Can only retry failed renders (current: pending)")) :=
  ⟨(transition_tables_exact.1 "draft" "validated").mpr (by decide),
   (transition_tables_exact.2 [("r3", failedJob)] "r3" failedJob rfl).1 rfl,
   (transition_tables_exact.2 [("r1", pendingJob)] "r1" pendingJob rfl).2 (by decide)⟩
